import Mathlib

/-!
Verification development for the hyfetch theming layer.

Shallow embedding of the excerpted sources:
- `presets.py` : the color-profile engine (`ColorProfile`) and the static palette
  registry (`PRESETS`, embedded below as its raw hex-string data `PRESETS_RAW`);
- `models.py`  : hex-color validation and custom-preset materialization;
- `rs.py`      : the backend launcher (`run_rust`);
- `types.py`   : the closed enumerations.

Python integers are embedded as `Nat`, Python floats (lightness / alpha values)
as `Rat`, Python strings as `String` (reasoned about through their character
list `String.data`). Fallible Python code (code that can raise) is embedded with
`Option` / `Except`; the error type `PyError` distinguishes `ValueError` (the
"InvalidInput" failure of the spec, carrying its message) from the unguarded
`IndexError` of indexing an empty list. Sibling modules that are not part of
the excerpt (`color_util`, `constants`) are modelled from the spec where the
claims need them; each such definition is marked `Modelled from the spec`.
-/

/-- Errors raised by the embedded Python code: `valueError` carries the message of
a Python `ValueError` (the spec's "InvalidInput"); `indexError` models the
unguarded `IndexError` of `colors[0]` on an empty list. -/
inductive PyError where
  | valueError (msg : String)
  | indexError
deriving DecidableEq, Repr

/-- The closed light/dark enumeration of `types.py` (`LightDark`). -/
inductive LightDark where
  | light
  | dark
deriving DecidableEq, Repr

/-- RGB color: three 0-255 channel values (`color_util.RGB`, a named triple). -/
structure RGB where
  r : Nat
  g : Nat
  b : Nat
deriving DecidableEq, Repr

/-- The hex digit characters accepted by `models.py`'s validation
(the Python literal `'0123456789abcdefABCDEF'`). -/
def hexDigits : List Char := "0123456789abcdefABCDEF".data

/-- Membership of a character in the hex digit set. -/
def isHexDigitChar (c : Char) : Bool := hexDigits.contains c

/-- Spec-side hex color literal format: a leading `#` followed by exactly 3 or 6
case-insensitive hex digits (spec section on external interfaces). -/
def isHexLiteral (s : String) : Bool :=
  match s.data with
  | c :: rest => c == '#' && (rest.length == 3 || rest.length == 6) && rest.all isHexDigitChar
  | [] => false

/-- The validation condition of `models.py` `build_hex_color_profile`, verbatim:
`color.startswith('#') and len(color) in [4, 7] and all(c in '0123...' for c in color[1:])`. -/
def isValidHexColor (color : String) : Bool :=
  color.data.head? == some '#' && (color.data.length == 4 || color.data.length == 7)
    && (color.data.drop 1).all isHexDigitChar

/-- Numeric value of a hex digit, `none` for any other character. -/
def hexVal (c : Char) : Option Nat :=
  if '0' ≤ c ∧ c ≤ '9' then some (c.toNat - 48)
  else if 'a' ≤ c ∧ c ≤ 'f' then some (c.toNat - 87)
  else if 'A' ≤ c ∧ c ≤ 'F' then some (c.toNat - 55)
  else none

/-- Modelled from the spec: `color_util.RGB.from_hex` (source not in the excerpt).
Per the spec it accepts exactly the 3- or 6-hex-digit forms prefixed with `#`
(case-insensitive) and fails with InvalidInput on anything else; a 3-digit form
doubles each digit. -/
def RGB.from_hex? (s : String) : Option RGB :=
  if isHexLiteral s then
    match s.data with
    | _ :: [a, b, c] =>
        some ⟨(hexVal a).getD 0 * 17, (hexVal b).getD 0 * 17, (hexVal c).getD 0 * 17⟩
    | _ :: [a, b, c, d, e, f] =>
        some ⟨(hexVal a).getD 0 * 16 + (hexVal b).getD 0,
              (hexVal c).getD 0 * 16 + (hexVal d).getD 0,
              (hexVal e).getD 0 * 16 + (hexVal f).getD 0⟩
    | _ => none
  else none

/-- A color profile: an ordered sequence of colors, optionally remembering the
original hex-string form (`presets.py` `ColorProfile`; `raw` is only set by the
string-list constructor path). -/
structure ColorProfile where
  colors : List RGB
  raw : Option (List String) := none
deriving DecidableEq, Repr

/-- The string-list comprehension `[RGB.from_hex(c) for c in colors]`: evaluates
left to right, failing at the first string `from_hex` rejects. -/
def mapFromHex : List String → Option (List RGB)
  | [] => some []
  | c :: rest =>
    match RGB.from_hex? c, mapFromHex rest with
    | some x, some xs => some (x :: xs)
    | _, _ => none

/-- `ColorProfile.__init__` on a `list[str]`: `colors[0]` on an empty list raises
`IndexError`; otherwise every element is parsed with `RGB.from_hex` (which raises
`ValueError` on a malformed literal) and the raw strings are kept. -/
def ColorProfile.init_str : List String → Except PyError ColorProfile
  | [] => .error .indexError
  | colors =>
    match mapFromHex colors with
    | some rgbs => .ok ⟨rgbs, some colors⟩
    | none => .error (.valueError "invalid hex color literal")

/-- `ColorProfile.__init__` on a `list[RGB]`: `colors[0]` on an empty list raises
`IndexError`; otherwise the list is stored as-is (`raw` stays unset). -/
def ColorProfile.init_rgb : List RGB → Except PyError ColorProfile
  | [] => .error .indexError
  | colors => .ok ⟨colors, none⟩

/-- The list comprehension of `ColorProfile.with_weights`:
`[c for i, w in enumerate(weights) for c in [self.colors[i]] * w]`
(only ever called with `weights` aligned to the colors). -/
def weightedFlatten : List RGB → List Nat → List RGB
  | _, [] => []
  | [], _ :: _ => []
  | c :: cs, w :: ws => List.replicate w c ++ weightedFlatten cs ws

/-- `ColorProfile.with_weights`: repeat each color its weight's number of times,
in order. -/
def ColorProfile.with_weights (p : ColorProfile) (weights : List Nat) : List RGB :=
  weightedFlatten p.colors weights

/-- `weights[i] += 1` (the index is always in range at the call sites). -/
def bump (ws : List Nat) (i : Nat) : List Nat :=
  ws.set i (ws.getD i 0 + 1)

/-- The border loop of `ColorProfile.with_length`:
`while extras > 0: extras -= 2; weights[border_i] += 1; weights[-(border_i+1)] += 1; border_i += 1`.
Python's negative index `-(border_i+1)` is `len(weights) - (border_i+1)`. -/
def borderLoop : Nat → Nat → List Nat → List Nat
  | 0, _, ws => ws
  | 1, b, ws => bump (bump ws b) ((bump ws b).length - (b + 1))
  | e + 2, b, ws => borderLoop e (b + 1) (bump (bump ws b) ((bump ws b).length - (b + 1)))

/-- The weight list computed by `ColorProfile.with_length` for `preset_len` colors
and a target text `length`: base weight `length / preset_len` per color, the odd
extra unit to the center color `preset_len / 2`, the remaining (even) extras two
at a time to the border index and its mirrored position, moving inward. -/
def lengthWeights (preset_len length : Nat) : List Nat :=
  let center_i := preset_len / 2
  let repeats := length / preset_len
  let weights := List.replicate preset_len repeats
  let extras := length % preset_len
  if extras % 2 == 1 then borderLoop (extras - 1) 0 (bump weights center_i)
  else borderLoop extras 0 weights

/-- `ColorProfile.with_length`: spread the colors to a flat sequence of the given
length. `length // preset_len` raises `ZeroDivisionError` when the profile has no
colors, embedded as `none`. -/
def ColorProfile.with_length (p : ColorProfile) (length : Nat) : Option (List RGB) :=
  if p.colors.length = 0 then none
  else some (p.with_weights (lengthWeights p.colors.length length))

/-- Modelled from the spec: `color_util.RGB.to_ansi` rendering (source not in the
excerpt): foreground form `ESC[38;2;R;G;Bm`, background form `ESC[48;2;R;G;Bm`. -/
def RGB.to_ansi (c : RGB) (foreground : Bool) : String :=
  "\x1b[" ++ (if foreground then "38" else "48") ++ ";2;"
    ++ toString c.r ++ ";" ++ toString c.g ++ ";" ++ toString c.b ++ "m"

/-- The character loop of `ColorProfile.color_text`, walking the color/character
pairs with the previous character (`txt[i-1]`, `none` at `i = 0`):
a non-space character in space-only mode is emitted uncolored, preceded by the
reset sequence exactly when the previous character was a space; every other
character gets its color's escape sequence. -/
def colorTextLoop (foreground space_only : Bool) : List (RGB × Char) → Option Char → String
  | [], _ => ""
  | (col, t) :: rest, prev =>
    (if space_only && t != ' ' then
      (if prev == some ' ' then "\x1b[39;49m" else "") ++ t.toString
     else
      col.to_ansi foreground ++ t.toString)
    ++ colorTextLoop foreground space_only rest (some t)

/-- `ColorProfile.color_text`: color the text with the length-fitted sequence and
append the trailing reset sequence (`none` models the `ZeroDivisionError` of
`with_length` on an empty profile). -/
def ColorProfile.color_text (p : ColorProfile) (txt : String)
    (foreground space_only : Bool) : Option String :=
  (p.with_length txt.length).map fun colors =>
    colorTextLoop foreground space_only (colors.zip txt.data) none ++ "\x1b[39;49m"

/-- Round a rational to the nearest integer, as Python `round` of the exact value
(half cases are irrelevant at the call sites). -/
def ratRound (q : Rat) : Int := ⌊q + 1 / 2⌋

/-- Clamp an integer channel value to [0, 255]. -/
def clamp255 (i : Int) : Nat := (max 0 (min 255 i)).toNat

/-- Modelled from the spec: one channel of `color_util.RGB.overlay`:
`result = new * alpha + old * (1 - alpha)`, rounded to the nearest integer and
clamped to [0, 255]. -/
def blendChannel (oldc newc : Nat) (alpha : Rat) : Nat :=
  clamp255 (ratRound ((newc : Rat) * alpha + (oldc : Rat) * (1 - alpha)))

/-- Modelled from the spec: `color_util.RGB.overlay` alpha-blends another color on
top, per channel. -/
def RGB.overlay (c other : RGB) (alpha : Rat) : RGB :=
  ⟨blendChannel c.r other.r alpha, blendChannel c.g other.g alpha,
    blendChannel c.b other.b alpha⟩

/-- Python `x % 1.0` on a rational. -/
def ratMod1 (q : Rat) : Rat := q - (⌊q⌋ : Rat)

/-- RGB (each channel in [0,1]) to HLS, the standard `colorsys.rgb_to_hls`
conversion the spec's "HSL lightness" refers to. -/
def rgb_to_hls (r g b : Rat) : Rat × Rat × Rat :=
  let maxc := max r (max g b)
  let minc := min r (min g b)
  let sumc := maxc + minc
  let rangec := maxc - minc
  let l := sumc / 2
  if minc == maxc then (0, l, 0)
  else
    let s := if l ≤ 1 / 2 then rangec / sumc else rangec / (2 - sumc)
    let rc := (maxc - r) / rangec
    let gc := (maxc - g) / rangec
    let bc := (maxc - b) / rangec
    let h := if r == maxc then bc - gc else if g == maxc then 2 + rc - bc else 4 + gc - rc
    (ratMod1 (h / 6), l, s)

/-- Helper `_v` of the standard `colorsys.hls_to_rgb` conversion. -/
def hlsV (m1 m2 hue : Rat) : Rat :=
  let hue := ratMod1 hue
  if hue < 1 / 6 then m1 + (m2 - m1) * hue * 6
  else if hue < 1 / 2 then m2
  else if hue < 2 / 3 then m1 + (m2 - m1) * (2 / 3 - hue) * 6
  else m1

/-- HLS to RGB (each channel in [0,1]), the standard `colorsys.hls_to_rgb`. -/
def hls_to_rgb (h l s : Rat) : Rat × Rat × Rat :=
  if s == 0 then (l, l, l)
  else
    let m2 := if l ≤ 1 / 2 then l * (1 + s) else l + s - l * s
    let m1 := 2 * l - m2
    (hlsV m1 m2 (h + 1 / 3), hlsV m1 m2 h, hlsV m1 m2 (h - 1 / 3))

/-- Modelled from the spec: `color_util.RGB.set_light` (source not in the excerpt):
set the HSL lightness to an exact value, a no-op when the current lightness
already satisfies the requested `at_least` / `at_most` bound in the given
direction; the color-science conversion is the standard HSL one named (but not
spelled out) by the spec. -/
def RGB.set_light (c : RGB) (light : Rat) (at_least at_most : Option Bool) : RGB :=
  let hls := rgb_to_hls ((c.r : Rat) / 255) ((c.g : Rat) / 255) ((c.b : Rat) / 255)
  if (at_least = some true ∧ light ≤ hls.2.1) ∨ (at_most = some true ∧ hls.2.1 ≤ light) then c
  else
    let rgb := hls_to_rgb hls.1 light hls.2.2
    ⟨clamp255 (ratRound (rgb.1 * 255)), clamp255 (ratRound (rgb.2.1 * 255)),
      clamp255 (ratRound (rgb.2.2 * 255))⟩

/-- `ColorProfile.set_light_raw`: set every color's HSL lightness (new profile,
original unmodified). -/
def ColorProfile.set_light_raw (p : ColorProfile) (light : Rat)
    (at_least at_most : Option Bool) : ColorProfile :=
  ⟨p.colors.map (fun c => c.set_light light at_least at_most), none⟩

/-- Modelled from the spec: the process-wide configuration/lookup service
(`constants.GLOBAL_CFG`, source not in the excerpt). Only the members the preset
engine reads are modelled: the overlay-strategy flag `use_overlay` and the
terminal light/dark detector `light_dark`. -/
structure GlobalConfig where
  use_overlay : Bool
  light_dark : LightDark

/-- `term = term or GLOBAL_CFG.light_dark()`. -/
def termOf (cfg : GlobalConfig) (term : Option LightDark) : LightDark :=
  term.getD cfg.light_dark

/-- `ColorProfile.overlay_raw`: overlay a color on top of every color of the
profile (new profile, original unmodified). -/
def ColorProfile.overlay_raw (p : ColorProfile) (color : RGB) (alpha : Rat) : ColorProfile :=
  ⟨p.colors.map (fun c => c.overlay color alpha), none⟩

/-- The alpha used by `ColorProfile.overlay_dl`: `abs(light - 0.5) * 2`. -/
def overlayAlpha (light : Rat) : Rat := |light - 1 / 2| * 2

/-- `ColorProfile.overlay_dl`: overlay black (`#000000`) for a light terminal and
white (`#FFFFFF`) for a dark terminal, with alpha `abs(light - 0.5) * 2`. -/
def ColorProfile.overlay_dl (p : ColorProfile) (cfg : GlobalConfig) (light : Rat)
    (term : Option LightDark) : ColorProfile :=
  let t := termOf cfg term
  let overlay_color :=
    (RGB.from_hex? (if t = LightDark.light then "#000000" else "#FFFFFF")).getD ⟨0, 0, 0⟩
  p.overlay_raw overlay_color (overlayAlpha light)

/-- `ColorProfile.set_light_dl`: the overlay strategy when `GLOBAL_CFG.use_overlay`
is set, otherwise raw lightness with `(at_least, at_most) = (True, None)` for a
dark terminal and `(None, True)` for a light one. -/
def ColorProfile.set_light_dl (p : ColorProfile) (cfg : GlobalConfig) (light : Rat)
    (term : Option LightDark) : ColorProfile :=
  if cfg.use_overlay then p.overlay_dl cfg light term
  else
    match termOf cfg term with
    | .dark => p.set_light_raw light (some true) none
    | .light => p.set_light_raw light none (some true)

/-- The accumulator loop of `remove_duplicates`: keep an element exactly when the
`seen` set does not contain it yet, adding it to `seen` as a side effect. -/
def rdGo {α : Type} [DecidableEq α] : List α → List α → List α
  | [], _ => []
  | x :: xs, seen => if x ∈ seen then rdGo xs seen else x :: rdGo xs (x :: seen)

/-- `presets.py` `remove_duplicates`: remove duplicate items from a sequence while
preserving the order. -/
def remove_duplicates {α : Type} [DecidableEq α] (seq : List α) : List α :=
  rdGo seq []

/-- `ColorProfile.unique_colors`: a new profile with only the unique colors. -/
def ColorProfile.unique_colors (p : ColorProfile) : ColorProfile :=
  ⟨remove_duplicates p.colors, none⟩

/-- Spec-side first-occurrence de-duplication: keep each element's first
occurrence in its original position, delete every later duplicate of it. -/
def firstOccDedup {α : Type} [DecidableEq α] : List α → List α
  | [] => []
  | x :: xs => x :: (firstOccDedup xs).filter (fun a => decide (a ≠ x))

/-- Spec-side rendering of `color_text`'s space-only mode: only space characters
receive a color block; a non-space character is emitted bare, preceded by the
reset sequence exactly when it directly follows a space (the trailing reset is
appended by the caller). -/
def spaceOnlyRun (fg : Bool) : List (RGB × Char) → Option Char → String
  | [], _ => ""
  | (col, t) :: rest, prev =>
    (if t == ' ' then col.to_ansi fg ++ t.toString
     else (if prev == some ' ' then "\x1b[39;49m" else "") ++ t.toString)
    ++ spaceOnlyRun fg rest (some t)

/-- `models.py` `build_hex_color_profile`: reject (with `ValueError` naming the
offending literal) the first color failing the validation condition, then build
the profile from the hex strings. -/
def build_hex_color_profile (hex_colors : List String) : Except PyError ColorProfile :=
  match hex_colors.find? (fun c => !isValidHexColor c) with
  | some c => .error (.valueError ("invalid hex color: " ++ c))
  | none => ColorProfile.init_str hex_colors

/-- The entry loop of `Config.custom_preset_profiles`: build each entry's profile
in order; a `ValueError` is re-raised with the offending preset key prefixed,
any other error (the `IndexError` of an empty color list) propagates uncaught. -/
def cppGo : List (String × List String) → Except PyError (List (String × ColorProfile))
  | [] => .ok []
  | (preset_name, colors) :: rest =>
    match build_hex_color_profile colors with
    | .ok p => (cppGo rest).map (fun l => (preset_name, p) :: l)
    | .error (.valueError msg) =>
        .error (.valueError
          ("failed to validate custom preset key \x22" ++ preset_name ++ "\x22: " ++ msg))
    | .error e => .error e

/-- `Config.custom_preset_profiles`: empty mapping when the custom-presets field
is absent (`None`) or empty, otherwise one profile per entry in order. -/
def custom_preset_profiles (custom_presets : Option (List (String × List String))) :
    Except PyError (List (String × ColorProfile)) :=
  match custom_presets with
  | none => .ok []
  | some entries => cppGo entries

/-- The launcher's environment (`rs.py`): what `platform`, `sys` and the
filesystem report. `windowsMajor` is `sys.getwindowsversion().major` (only read
when the platform is Windows), `macVer` is `platform.mac_ver()[0]`, `rustExists`
is whether the compiled executable exists at the well-known path under
`srcDir` (`constants.SRC`). -/
structure Platform where
  system : String
  windowsMajor : Nat
  macVer : String
  rustExists : Bool
  srcDir : String

/-- `'.'.split` of a version string into its character groups. -/
def splitDots : List Char → List (List Char)
  | [] => [[]]
  | '.' :: rest => [] :: splitDots rest
  | c :: rest =>
    match splitDots rest with
    | g :: gs => (c :: g) :: gs
    | [] => [[c]]

/-- Decimal parse of one version component (the launcher only ever parses numeric
components; Python `int` would raise on anything else). -/
def parseNatChars (cs : List Char) : Nat :=
  cs.foldl (fun a c => a * 10 + (c.toNat - 48)) 0

/-- `tuple(map(int, mac_ver.split('.')))`. -/
def parseVer (s : String) : List Nat :=
  (splitDots s.data).map parseNatChars

/-- Python tuple `<`: lexicographic, a strict prefix is smaller. -/
def verLt : List Nat → List Nat → Bool
  | [], [] => false
  | [], _ :: _ => true
  | _ :: _, [] => false
  | a :: as, b :: bs => a < b || (a == b && verLt as bs)

/-- The Windows fallback reason string of `rs.py`. -/
def win_reason : String :=
  "&cWindows < 10 detected, falling back to python version since rust 1.76+ do not support it."

/-- The macOS fallback reason string of `rs.py` (an f-string carrying the detected
version). -/
def mac_reason (mac_ver : String) : String :=
  "&cmacOS " ++ mac_ver ++ " detected, falling back to python version since rust 1.74+ do not support it."

/-- The missing-executable fallback reason string of `rs.py`. -/
def missing_reason : String :=
  "&cThe executable for hyfetch v2 (rust) is not found, falling back to legacy v1.99.∞ (python)."

/-- The platform checks of `run_rust`, in order: Windows with major version below
10, else Darwin with a non-empty reported version below `(10, 12)`. -/
def platform_reason (p : Platform) : Option String :=
  if p.system = "Windows" ∧ p.windowsMajor < 10 then some win_reason
  else if p.system = "Darwin" ∧ p.macVer ≠ "" ∧ verLt (parseVer p.macVer) [10, 12] = true then
    some (mac_reason p.macVer)
  else none

/-- The well-known compiled-executable path:
`SRC / 'rust' / ('hyfetch.exe' if Windows else 'hyfetch')`. -/
def rust_path (p : Platform) : String :=
  p.srcDir ++ "/rust/" ++ (if p.system = "Windows" then "hyfetch.exe" else "hyfetch")

/-- The launcher's disposition: fall back to the legacy python runner (printing
the reason unless suppressed), or replace the process image with the compiled
executable, forwarding `sys.argv[1:]` after the program path. -/
inductive Outcome where
  | fallback (reason : String)
  | exec (path : String) (argv : List String)
deriving DecidableEq, Repr

/-- `rs.py` `run_rust`: platform checks first, then the missing-executable check,
then either the fallback or the `os.execv` process replacement. -/
def run_rust (p : Platform) (args : List String) : Outcome :=
  match platform_reason p with
  | some r => .fallback r
  | none =>
    if p.rustExists then .exec (rust_path p) (rust_path p :: args)
    else .fallback missing_reason
/-- The raw hex-color string data of the static palette registry `PRESETS` of
`presets.py`: each entry's name and, in order, every raw color string literal
appearing in that entry's profile. -/
def PRESETS_RAW : List (String × List String) := [
  ("rainbow", ["#E50000", "#FF8D00", "#FFEE00", "#028121", "#004CFF", "#770088"]),
  ("transgender", ["#55CDFD", "#F6AAB7", "#FFFFFF", "#F6AAB7", "#55CDFD"]),
  ("nonbinary", ["#FCF431", "#FCFCFC", "#9D59D2", "#282828"]),
  ("xenogender", ["#FF6692", "#FF9A98", "#FFB883", "#FBFFA8", "#85BCFF", "#9D85FF", "#A510FF"]),
  ("agender", ["#000000", "#BABABA", "#FFFFFF", "#BAF484", "#FFFFFF", "#BABABA", "#000000"]),
  ("queer", ["#B57FDD", "#FFFFFF", "#49821E"]),
  ("genderfluid", ["#FE76A2", "#FFFFFF", "#BF12D7", "#000000", "#303CBE"]),
  ("bisexual", ["#D60270", "#9B4F96", "#0038A8"]),
  ("pansexual", ["#FF1C8D", "#FFD700", "#1AB3FF"]),
  ("polysexual", ["#F714BA", "#01D66A", "#1594F6"]),
  ("omnisexual", ["#FE9ACE", "#FF53BF", "#200044", "#6760FE", "#8EA6FF"]),
  ("omniromantic", ["#FEC8E4", "#FDA1DB", "#89739A", "#ABA7FE", "#BFCEFF"]),
  ("gay-men", ["#078D70", "#98E8C1", "#FFFFFF", "#7BADE2", "#3D1A78"]),
  ("lesbian", ["#D62800", "#FF9B56", "#FFFFFF", "#D462A6", "#A40062"]),
  ("abrosexual", ["#46D294", "#A3E9CA", "#FFFFFF", "#F78BB3", "#EE1766"]),
  ("asexual", ["#000000", "#A4A4A4", "#FFFFFF", "#810081"]),
  ("aromantic", ["#3BA740", "#A8D47A", "#FFFFFF", "#ABABAB", "#000000"]),
  ("aroace1", ["#E28C00", "#ECCD00", "#FFFFFF", "#62AEDC", "#203856"]),
  ("aroace2", ["#000000", "#810081", "#A4A4A4", "#FFFFFF", "#A8D47A", "#3BA740"]),
  ("aroace3", ["#3BA740", "#A8D47A", "#FFFFFF", "#ABABAB", "#000000", "#A4A4A4", "#FFFFFF", "#810081"]),
  ("autosexual", ["#99D9EA", "#7F7F7F"]),
  ("intergender", ["#900DC2", "#900DC2", "#FFE54F", "#900DC2", "#900DC2"]),
  ("greygender", ["#B3B3B3", "#B3B3B3", "#FFFFFF", "#062383", "#062383", "#FFFFFF", "#535353", "#535353"]),
  ("akiosexual", ["#F9485E", "#FEA06A", "#FEF44C", "#FFFFFF", "#000000"]),
  ("bigender", ["#C479A2", "#EDA5CD", "#D6C7E8", "#FFFFFF", "#D6C7E8", "#9AC7E8", "#6D82D1"]),
  ("demigender", ["#7F7F7F", "#C4C4C4", "#FBFF75", "#FFFFFF", "#FBFF75", "#C4C4C4", "#7F7F7F"]),
  ("demiboy", ["#7F7F7F", "#C4C4C4", "#9DD7EA", "#FFFFFF", "#9DD7EA", "#C4C4C4", "#7F7F7F"]),
  ("demigirl", ["#7F7F7F", "#C4C4C4", "#FDADC8", "#FFFFFF", "#FDADC8", "#C4C4C4", "#7F7F7F"]),
  ("transmasculine", ["#FF8ABD", "#CDF5FE", "#9AEBFF", "#74DFFF", "#9AEBFF", "#CDF5FE", "#FF8ABD"]),
  ("transfeminine", ["#73DEFF", "#FFE2EE", "#FFB5D6", "#FF8DC0", "#FFB5D6", "#FFE2EE", "#73DEFF"]),
  ("genderfaun", ["#FCD689", "#FFF09B", "#FAF9CD", "#FFFFFF", "#8EDED9", "#8CACDE", "#9782EC"]),
  ("demifaun", ["#7F7F7F", "#7F7F7F", "#C6C6C6", "#C6C6C6", "#FCC688", "#FFF19C", "#FFFFFF", "#8DE0D5", "#9682EC", "#C6C6C6", "#C6C6C6", "#7F7F7F", "#7F7F7F"]),
  ("genderfae", ["#97C3A5", "#C3DEAE", "#F9FACD", "#FFFFFF", "#FCA2C4", "#DB8AE4", "#A97EDD"]),
  ("demifae", ["#7F7F7F", "#7F7F7F", "#C5C5C5", "#C5C5C5", "#97C3A4", "#C4DEAE", "#FFFFFF", "#FCA2C5", "#AB7EDF", "#C5C5C5", "#C5C5C5", "#7F7F7F", "#7F7F7F"]),
  ("neutrois", ["#FFFFFF", "#1F9F00", "#000000"]),
  ("biromantic1", ["#8869A5", "#D8A7D8", "#FFFFFF", "#FDB18D", "#151638"]),
  ("biromantic2", ["#740194", "#AEB1AA", "#FFFFFF", "#AEB1AA", "#740194"]),
  ("autoromantic", ["#99D9EA", "#99D9EA", "#3DA542", "#7F7F7F", "#7F7F7F"]),
  ("boyflux2", ["#E48AE4", "#9A81B4", "#55BFAB", "#FFFFFF", "#A8A8A8", "#81D5EF", "#69ABE5", "#5276D4"]),
  ("girlflux", ["f9e6d7", "f2526c", "bf0311", "e9c587", "bf0311", "f2526c", "f9e6d7"]),
  ("genderflux", ["f47694", "f2a2b9", "cecece", "7ce0f7", "3ecdf9", "fff48d"]),
  ("finsexual", ["#B18EDF", "#D7B1E2", "#F7CDE9", "#F39FCE", "#EA7BB3"]),
  ("unlabeled1", ["#EAF8E4", "#FDFDFB", "#E1EFF7", "#F4E2C4"]),
  ("unlabeled2", ["#250548", "#FFFFFF", "#F7DCDA", "#EC9BEE", "#9541FA", "#7D2557"]),
  ("pangender", ["#FFF798", "#FEDDCD", "#FFEBFB", "#FFFFFF", "#FFEBFB", "#FEDDCD", "#FFF798"]),
  ("pangender.contrast", ["#ffe87f", "#fcbaa6", "#fbc9f3", "#FFFFFF", "#fbc9f3", "#fcbaa6", "#ffe87f"]),
  ("gendernonconforming1", ["#50284d", "#96467b", "#5c96f7", "#ffe6f7", "#5c96f7", "#96467b", "#50284d"]),
  ("gendernonconforming2", ["#50284d", "#96467b", "#5c96f7", "#ffe6f7", "#5c96f7", "#96467b", "#50284d"]),
  ("femboy", ["#d260a5", "#e4afcd", "#fefefe", "#57cef8", "#fefefe", "#e4afcd", "#d260a5"]),
  ("tomboy", ["#2f3fb9", "#613a03", "#fefefe", "#f1a9b7", "#fefefe", "#613a03", "#2f3fb9"]),
  ("gynesexual", ["#F4A9B7", "#903F2B", "#5B953B"]),
  ("androsexual", ["#01CCFF", "#603524", "#B799DE"]),
  ("gendervoid", ["#081149", "#4B484B", "#000000", "#4B484B", "#081149"]),
  ("voidgirl", ["#180827", "#7A5A8B", "#E09BED", "#7A5A8B", "#180827"]),
  ("voidboy", ["#0B130C", "#547655", "#66B969", "#547655", "#0B130C"]),
  ("nonhuman-unity", ["#177B49", "#FFFFFF", "#593C90"]),
  ("plural", ["#2D0625", "#543475", "#7675C3", "#89C7B0", "#F3EDBD"]),
  ("fraysexual", ["#226CB5", "#94E7DD", "#FFFFFF", "#636363"]),
  ("bear", ["#623804", "#D56300", "#FEDD63", "#FEE6B8", "#FFFFFF", "#555555"]),
  ("butch", ["#D72800", "#F17623", "#FF9C56", "#FFFDF6", "#FFCE89", "#FEAF02", "#A37000"]),
  ("leather", ["#000000", "#252580", "#000000", "#252580", "#FFFFFF", "#252580", "#000000", "#252580", "#000000"]),
  ("otter", ["#263881", "#5C9DC9", "#FFFFFF", "#3A291D", "#5C9DC9", "#263881"]),
  ("twink", ["#FFB2FF", "#FFFFFF", "#FFFF81"]),
  ("kenochoric", ["#000000", "#2E1569", "#824DB7", "#C7A1D6"]),
  ("veldian", ["#D182A8", "#FAF6E0", "#69ACBE", "#5D448F", "#3A113E"]),
  ("solian", ["#FFF8ED", "#FFE7A8", "#F1B870", "#A56058", "#46281E"]),
  ("lunian", ["#2F0E62", "#6F41B1", "#889FDF", "#7DDFD5", "#D2F2E2"]),
  ("polyam", ["#FFFFFF", "#FCBF00", "#009FE3", "#E50051", "#340C46"]),
  ("sapphic", ["#FD8BA8", "#FBF2FF", "#C76BC5", "#FDD768", "#C76BC5", "#FBF2FF", "#FD8BA8"]),
  ("androgyne", ["#FE007F", "#9832FF", "#00B8E7"]),
  ("interprogress", ["#FFD800", "#7902AA", "#FFFFFF", "#FFAFC8", "#74D7EE", "#613915", "#000000", "#E50000", "#FF8D00", "#FFEE00", "#028121", "#004CFF", "#770088"]),
  ("progress", ["#FFFFFF", "#FFAFC8", "#74D7EE", "#613915", "#000000", "#E50000", "#FF8D00", "#FFEE00", "#028121", "#004CFF", "#770088"]),
  ("intersex", ["#FFD800", "#FFD800", "#7902AA", "#FFD800", "#FFD800"]),
  ("old-polyam", ["#0000FF", "#FF0000", "#FFFF00", "#FF0000", "#000000"]),
  ("equal-rights", ["#0000FF", "#0000FF", "#FFFF00", "#0000FF", "#0000FF", "#FFFF00", "#0000FF", "#0000FF"]),
  ("drag", ["#CC67FF", "#FFFFFF", "#FFA3E3", "#FFFFFF", "#3366FF"]),
  ("pronounfluid", ["#ffb3f9", "#ffffff", "#d1fdcb", "#c7b0ff", "#000000", "#b8ccff"]),
  ("pronounflux", ["#fdb3f8", "#b6ccfa", "#18ddd3", "#64ff89", "#ff7690", "#ffffff"]),
  ("exipronoun", ["#1c3d34", "#ffffff", "#321848", "#000000"]),
  ("neopronoun", ["#bcec64", "#ffffff", "#38077a"]),
  ("neofluid", ["#ffeca0", "#ffffff", "#ffeca0", "#38087a", "#bcec64"]),
  ("genderqueer", ["#b57edc", "#b57edc", "#ffffff", "#ffffff", "#4a8123", "#4a8123"]),
  ("cisgender", ["#D70270", "#0038A7"]),
  ("baker", ["#F23D9E", "#F80A24", "#F78022", "#F9E81F", "#1E972E", "#1B86BC", "#243897", "#6F0A82"]),
  ("caninekin", ["#2d2822", "#543d25", "#9c754d", "#e8dac2", "#cfad8c", "#b77b55", "#954e31"]),
  ("beiyang", ["#DF1B12", "#FFC600", "#01639D", "#FFFFFF", "#000000"]),
  ("burger", ["#F3A26A", "#498701", "#FD1C13", "#7D3829", "#F3A26A"]),
  ("throatlozenges", ["#2759DA", "#03940D", "#F5F100", "#F59B00", "#B71212"]),
  ("band", ["#2670c0", "#f5bd00", "#dc0045", "#e0608e"])
]


/-! ### Arithmetic lemmas about the weight computation -/

theorem bump_length (ws : List Nat) (i : Nat) : (bump ws i).length = ws.length := by
  simp [bump]

theorem bump_sum : ∀ (ws : List Nat) (i : Nat), i < ws.length → (bump ws i).sum = ws.sum + 1
  | [], i, h => absurd h (by simp)
  | w :: ws, 0, _ => by simp [bump, List.getD]; omega
  | w :: ws, i + 1, h => by
    have ih := bump_sum ws i (by simpa using h)
    simp only [bump, List.set_cons_succ, List.getD_cons_succ, List.sum_cons] at ih ⊢
    omega

theorem borderLoop_length : ∀ (e b : Nat) (ws : List Nat),
    (borderLoop e b ws).length = ws.length
  | 0, _, _ => rfl
  | 1, b, ws => by simp [borderLoop, bump_length]
  | e + 2, b, ws => by
    rw [borderLoop, borderLoop_length e]
    simp [bump_length]

theorem borderLoop_sum : ∀ (e b : Nat) (ws : List Nat), e % 2 = 0 →
    b + e / 2 ≤ ws.length → (borderLoop e b ws).sum = ws.sum + e
  | 0, _, _, _, _ => rfl
  | 1, b, ws, he, _ => by omega
  | e + 2, b, ws, he, hle => by
    have hb : b < ws.length := by omega
    have hb2 : (bump ws b).length - (b + 1) < (bump ws b).length := by
      rw [bump_length]; omega
    have ih := borderLoop_sum e (b + 1) (bump (bump ws b) ((bump ws b).length - (b + 1)))
      (by omega)
      (by rw [bump_length, bump_length]; omega)
    rw [borderLoop, ih, bump_sum _ _ hb2, bump_sum _ _ hb]
    omega

theorem weightedFlatten_length : ∀ (cs : List RGB) (ws : List Nat),
    cs.length = ws.length → (weightedFlatten cs ws).length = ws.sum
  | _, [], _ => by simp [weightedFlatten]
  | [], w :: ws, h => by simp at h
  | c :: cs, w :: ws, h => by
    have ih := weightedFlatten_length cs ws (by simpa using h)
    simp [weightedFlatten, ih]

theorem replicate_sum (n x : Nat) : (List.replicate n x).sum = n * x := by
  induction n with
  | zero => simp
  | succ k ih => simp [List.replicate_succ, ih, Nat.succ_mul]; omega

theorem lengthWeights_length (n L : Nat) : (lengthWeights n L).length = n := by
  unfold lengthWeights
  by_cases h : L % n % 2 = 1 <;> simp [h, borderLoop_length, bump_length]

theorem lengthWeights_sum (n L : Nat) (hn : 1 ≤ n) : (lengthWeights n L).sum = L := by
  unfold lengthWeights
  have hmod : L % n < n := Nat.mod_lt _ (by omega)
  have hdm : n * (L / n) + L % n = L := Nat.div_add_mod L n
  by_cases h : L % n % 2 = 1
  · have h1 : 1 ≤ L % n := by omega
    have hc : n / 2 < n := by omega
    rw [if_pos (by simpa using h)]
    rw [borderLoop_sum _ _ _ (by omega) (by rw [bump_length, List.length_replicate]; omega)]
    rw [bump_sum _ _ (by rw [List.length_replicate]; exact hc), replicate_sum]
    omega
  · rw [if_neg (by simpa using h)]
    rw [borderLoop_sum _ _ _ (by omega) (by rw [List.length_replicate]; omega)]
    rw [replicate_sum]
    omega

/-! ### Lemmas about hex parsing and validation -/

theorem length_three_shape {α : Type} : ∀ (l : List α), l.length = 3 →
    ∃ a b c, l = [a, b, c]
  | [a, b, c], _ => ⟨a, b, c, rfl⟩
  | [], h => by simp at h
  | [a], h => by simp at h
  | [a, b], h => by simp at h
  | a :: b :: c :: d :: t, h => by simp at h

theorem length_six_shape {α : Type} : ∀ (l : List α), l.length = 6 →
    ∃ a b c d e f, l = [a, b, c, d, e, f]
  | [a, b, c, d, e, f], _ => ⟨a, b, c, d, e, f, rfl⟩
  | [], h => by simp at h
  | [a], h => by simp at h
  | [a, b], h => by simp at h
  | [a, b, c], h => by simp at h
  | [a, b, c, d], h => by simp at h
  | [a, b, c, d, e], h => by simp at h
  | a :: b :: c :: d :: e :: f :: g :: t, h => by simp at h

theorem isValidHexColor_eq (s : String) : isValidHexColor s = isHexLiteral s := by
  unfold isValidHexColor isHexLiteral
  match h : s.data with
  | [] => simp
  | c :: rest =>
    simp only [List.head?, List.length_cons, List.drop_succ_cons, List.drop_zero]
    by_cases hc : c = '#'
    · subst hc
      simp only [beq_self_eq_true, Option.some.injEq, true_and]
      have h4 : (rest.length + 1 == 4) = (rest.length == 3) := by
        rw [Bool.eq_iff_iff]; simp only [beq_iff_eq]; omega
      have h7 : (rest.length + 1 == 7) = (rest.length == 6) := by
        rw [Bool.eq_iff_iff]; simp only [beq_iff_eq]; omega
      rw [h4, h7]
    · simp [hc]

theorem from_hex_isSome (s : String) (h : isHexLiteral s = true) :
    ∃ c, RGB.from_hex? s = some c := by
  unfold RGB.from_hex?
  rw [if_pos h]
  unfold isHexLiteral at h
  match hd : s.data with
  | [] => rw [hd] at h; simp at h
  | c :: rest =>
    rw [hd] at h
    simp only [Bool.and_eq_true, Bool.or_eq_true, beq_iff_eq] at h
    obtain ⟨⟨-, hlen⟩, -⟩ := h
    cases hlen with
    | inl h3 =>
      obtain ⟨a, b, d, rfl⟩ := length_three_shape rest h3
      exact ⟨_, rfl⟩
    | inr h6 =>
      obtain ⟨a, b, d, e, f, g, rfl⟩ := length_six_shape rest h6
      exact ⟨_, rfl⟩

theorem mapFromHex_isSome : ∀ (l : List String), (∀ s ∈ l, isHexLiteral s = true) →
    ∃ v, mapFromHex l = some v
  | [], _ => ⟨[], rfl⟩
  | c :: rest, h => by
    obtain ⟨x, hx⟩ := from_hex_isSome c (h c (by simp))
    obtain ⟨xs, hxs⟩ := mapFromHex_isSome rest (fun s hs => h s (by simp [hs]))
    exact ⟨x :: xs, by simp [mapFromHex, hx, hxs]⟩

theorem init_str_ok (l : List String) (hne : l ≠ []) (h : ∀ s ∈ l, isHexLiteral s = true) :
    ∃ p, ColorProfile.init_str l = Except.ok p := by
  obtain ⟨v, hv⟩ := mapFromHex_isSome l h
  match l, hne with
  | c :: rest, _ =>
    refine ⟨⟨v, some (c :: rest)⟩, ?_⟩
    unfold ColorProfile.init_str
    simp [hv]

/-! ### Lemmas about de-duplication -/

theorem rdGo_eq_filter {α : Type} [DecidableEq α] : ∀ (xs seen : List α),
    rdGo xs seen = (firstOccDedup xs).filter (fun a => decide (a ∉ seen))
  | [], seen => by simp [rdGo, firstOccDedup]
  | x :: xs, seen => by
    by_cases hx : x ∈ seen
    · rw [rdGo, if_pos hx, rdGo_eq_filter xs seen]
      rw [firstOccDedup, List.filter_cons, if_neg (by simp [hx]), List.filter_filter]
      apply List.filter_congr
      intro a _
      by_cases hax : a = x
      · subst hax; simp [hx]
      · simp [hax]
    · rw [rdGo, if_neg hx, rdGo_eq_filter xs (x :: seen)]
      rw [firstOccDedup, List.filter_cons, if_pos (by simp [hx]), List.filter_filter]
      congr 1
      apply List.filter_congr
      intro a _
      by_cases hax : a = x
      · subst hax; simp
      · simp [hax]

theorem remove_duplicates_eq {α : Type} [DecidableEq α] (l : List α) :
    remove_duplicates l = firstOccDedup l := by
  rw [remove_duplicates, rdGo_eq_filter]
  apply List.filter_eq_self.mpr
  intro a _
  simp

theorem firstOccDedup_sublist {α : Type} [DecidableEq α] : ∀ (l : List α),
    (firstOccDedup l).Sublist l
  | [] => List.Sublist.refl []
  | x :: xs => by
    rw [firstOccDedup]
    exact List.Sublist.cons₂ x ((List.filter_sublist _).trans (firstOccDedup_sublist xs))

theorem mem_firstOccDedup {α : Type} [DecidableEq α] : ∀ (l : List α) (a : α),
    a ∈ firstOccDedup l ↔ a ∈ l
  | [], a => by simp [firstOccDedup]
  | x :: xs, a => by
    rw [firstOccDedup]
    by_cases hax : a = x
    · subst hax; simp
    · simp only [List.mem_cons, List.mem_filter, mem_firstOccDedup xs a]
      simp [hax]

theorem firstOccDedup_nodup {α : Type} [DecidableEq α] : ∀ (l : List α),
    (firstOccDedup l).Nodup
  | [] => List.nodup_nil
  | x :: xs => by
    rw [firstOccDedup]
    refine List.Nodup.cons ?_ (List.Nodup.filter _ (firstOccDedup_nodup xs))
    intro hmem
    have := (List.mem_filter.mp hmem).2
    simp at this

/-! ### The space-only rendering of color_text -/

theorem colorTextLoop_space_only (fg : Bool) : ∀ (l : List (RGB × Char)) (prev : Option Char),
    colorTextLoop fg true l prev = spaceOnlyRun fg l prev
  | [], _ => rfl
  | (col, t) :: rest, prev => by
    rw [colorTextLoop, spaceOnlyRun, colorTextLoop_space_only fg rest (some t)]
    by_cases ht : t = ' '
    · subst ht; simp
    · simp [ht]

/-! ### Claim-level helper lemmas -/

theorem build_hex_ok (colors : List String) (hne : colors ≠ [])
    (hall : colors.all isValidHexColor = true) :
    ∃ p, build_hex_color_profile colors = Except.ok p := by
  have hfind : colors.find? (fun c => !isValidHexColor c) = none := by
    rw [List.find?_eq_none]
    intro x hx
    simp [List.all_eq_true.mp hall x hx]
  unfold build_hex_color_profile
  rw [hfind]
  exact init_str_ok colors hne (fun s hs => by
    rw [← isValidHexColor_eq]
    exact List.all_eq_true.mp hall s hs)

theorem cppGo_ok : ∀ (entries : List (String × List String)),
    (∀ e ∈ entries, e.2 ≠ [] ∧ e.2.all isValidHexColor = true) →
    ∃ out, cppGo entries = Except.ok out ∧ out.map Prod.fst = entries.map Prod.fst
  | [], _ => ⟨[], rfl, rfl⟩
  | (name, colors) :: rest, h => by
    have hh := h (name, colors) (List.mem_cons_self _ _)
    obtain ⟨p, hp⟩ := build_hex_ok colors hh.1 hh.2
    obtain ⟨out, ho, hmap⟩ := cppGo_ok rest (fun e he => h e (by simp [he]))
    refine ⟨(name, p) :: out, ?_, by simp [hmap]⟩
    rw [cppGo, hp, ho]
    rfl

theorem cppGo_err : ∀ (pre : List (String × List String)) (name : String)
    (colors : List String) (post : List (String × List String)) (c : String),
    (∀ e ∈ pre, e.2 ≠ [] ∧ e.2.all isValidHexColor = true) →
    colors.find? (fun x => !isValidHexColor x) = some c →
    cppGo (pre ++ (name, colors) :: post) =
      Except.error (.valueError
        ("failed to validate custom preset key \x22" ++ name ++ "\x22: " ++ ("invalid hex color: " ++ c)))
  | [], name, colors, post, c, _, hfind => by
    simp only [List.nil_append]
    rw [cppGo]
    unfold build_hex_color_profile
    rw [hfind]
  | (n0, c0) :: pre, name, colors, post, c, h, hfind => by
    have hh := h (n0, c0) (List.mem_cons_self _ _)
    obtain ⟨p, hp⟩ := build_hex_ok c0 hh.1 hh.2
    have ih := cppGo_err pre name colors post c (fun e he => h e (by simp [he])) hfind
    simp only [List.cons_append]
    rw [cppGo, hp, ih]
    rfl

/-! ### The claims -/

/-- C1, counterexample: for a 4-color profile and length 10 the code's weights are
`[3, 2, 2, 3]` (the border step adds one to positions 0 and 3), not `[2, 3, 3, 2]`
as the claim states. -/
theorem c1_counterexample :
    lengthWeights 4 10 = [3, 2, 2, 3]
  ∧ lengthWeights 4 10 ≠ [2, 3, 3, 2]
  ∧ (ColorProfile.mk [⟨255, 0, 0⟩, ⟨0, 255, 0⟩, ⟨0, 0, 255⟩, ⟨9, 9, 9⟩] none).with_length 10 ≠
      some ((ColorProfile.mk [⟨255, 0, 0⟩, ⟨0, 255, 0⟩, ⟨0, 0, 255⟩, ⟨9, 9, 9⟩] none).with_weights
        [2, 3, 3, 2]) := by
  refine ⟨by decide, by decide, by decide⟩

/-- C1 (amended): for every profile with at least one color and every length,
`with_length` returns the flat sequence expanded from the policy's weight list
and that sequence has exactly the requested length; for a 3-color profile and
length 10 the weights are `[3, 4, 3]`, and for a 4-color profile and length 10
they are `[3, 2, 2, 3]` (the border step adds one to positions 0 and 3). -/
theorem c1_spec (p : ColorProfile) (L : Nat) (h : 1 ≤ p.colors.length) :
    p.with_length L = some (p.with_weights (lengthWeights p.colors.length L))
  ∧ (∀ out, p.with_length L = some out → out.length = L)
  ∧ lengthWeights 3 10 = [3, 4, 3]
  ∧ lengthWeights 4 10 = [3, 2, 2, 3] := by
  have hlen : ¬ p.colors.length = 0 := by omega
  refine ⟨?_, ?_, by decide, by decide⟩
  · rw [ColorProfile.with_length, if_neg hlen]
  · intro out hout
    rw [ColorProfile.with_length, if_neg hlen, Option.some_inj] at hout
    subst hout
    rw [ColorProfile.with_weights, weightedFlatten_length _ _ (by rw [lengthWeights_length]),
      lengthWeights_sum _ _ h]

/-- Witness for C1 at a concrete 3-color profile and target length 10. -/
theorem c1_witness :
    1 ≤ (ColorProfile.mk [⟨229, 0, 0⟩, ⟨255, 141, 0⟩, ⟨255, 238, 0⟩] none).colors.length
  ∧ ((ColorProfile.mk [⟨229, 0, 0⟩, ⟨255, 141, 0⟩, ⟨255, 238, 0⟩] none).with_length 10 =
      some ((ColorProfile.mk [⟨229, 0, 0⟩, ⟨255, 141, 0⟩, ⟨255, 238, 0⟩] none).with_weights
        (lengthWeights (ColorProfile.mk [⟨229, 0, 0⟩, ⟨255, 141, 0⟩, ⟨255, 238, 0⟩] none).colors.length 10))
    ∧ (∀ out, (ColorProfile.mk [⟨229, 0, 0⟩, ⟨255, 141, 0⟩, ⟨255, 238, 0⟩] none).with_length 10 =
        some out → out.length = 10)
    ∧ lengthWeights 3 10 = [3, 4, 3]
    ∧ lengthWeights 4 10 = [3, 2, 2, 3]) :=
  ⟨by decide, c1_spec (ColorProfile.mk [⟨229, 0, 0⟩, ⟨255, 141, 0⟩, ⟨255, 238, 0⟩] none) 10 (by decide)⟩

/-- C2, counterexample: the registry entry `girlflux` contains the raw color
string `"f9e6d7"`, which does not conform to the hex color literal format (no
leading `#`). -/
theorem c2_counterexample :
    PRESETS_RAW.all (fun e => e.2.all isHexLiteral) = false
  ∧ ("girlflux", ["f9e6d7", "f2526c", "bf0311", "e9c587", "bf0311", "f2526c", "f9e6d7"]) ∈ PRESETS_RAW
  ∧ isHexLiteral "f9e6d7" = false := by
  refine ⟨by decide, by decide, by decide⟩

/-- C2 (amended): every raw color string of every registry entry conforms to the
`#` + 3-or-6-hex-digit literal format, except in the two entries `girlflux` and
`genderflux`, whose strings are bare 6-hex-digit strings without the leading `#`. -/
theorem c2_spec :
    PRESETS_RAW.all (fun e =>
      e.2.all (fun s =>
        if e.1 == "girlflux" || e.1 == "genderflux" then
          decide (s.data.length = 6) && s.data.all isHexDigitChar
        else isHexLiteral s)) = true := by
  decide

/-- C3: the custom-preset hex validation accepts a string exactly when it starts
with `#`, has total length 4 or 7 and every character after the `#` is a
case-insensitive hex digit; every other string is rejected with a `ValueError`
naming the offending literal; `"#fff"` and `"#ffffff"` are accepted, `"fff"`,
`"#ff"` and `"#gggggg"` are rejected. -/
theorem c3_spec (c : String) :
    isValidHexColor c = isHexLiteral c
  ∧ (isHexLiteral c = true → ∃ p, build_hex_color_profile [c] = Except.ok p)
  ∧ (isHexLiteral c = false →
      build_hex_color_profile [c] = Except.error (.valueError ("invalid hex color: " ++ c)))
  ∧ isValidHexColor "#fff" = true ∧ isValidHexColor "#ffffff" = true
  ∧ isValidHexColor "fff" = false ∧ isValidHexColor "#ff" = false
  ∧ isValidHexColor "#gggggg" = false := by
  refine ⟨isValidHexColor_eq c, ?_, ?_, by decide, by decide, by decide, by decide, by decide⟩
  · intro h
    have hv : isValidHexColor c = true := by rw [isValidHexColor_eq]; exact h
    obtain ⟨p, hp⟩ := init_str_ok [c] (by simp) (by simpa using h)
    refine ⟨p, ?_⟩
    unfold build_hex_color_profile
    rw [List.find?_cons_of_neg _ (by simp [hv]), List.find?_nil]
    exact hp
  · intro h
    have hv : isValidHexColor c = false := by rw [isValidHexColor_eq]; exact h
    unfold build_hex_color_profile
    rw [List.find?_cons_of_pos _ (by simp [hv])]

/-- Witness for C3 at the accepted literal `"#fff"`. -/
theorem c3_witness :
    isHexLiteral "#fff" = true ∧ ∃ p, build_hex_color_profile ["#fff"] = Except.ok p :=
  ⟨by decide, (c3_spec "#fff").2.1 (by decide)⟩

/-- C4, counterexample: a record whose custom-presets mapping has the single entry
`"x"` with an empty color list neither yields a profile for that entry nor fails
with a key-naming `ValueError`: the hex validation passes vacuously and the
profile constructor raises an unguarded `IndexError` that propagates uncaught. -/
theorem c4_counterexample :
    custom_preset_profiles (some [("x", [])]) = Except.error PyError.indexError := by
  rfl

/-- C4 (amended): `custom_preset_profiles` returns the empty mapping when the
custom-presets field is absent or empty; when every entry has a non-empty color
list of valid hex colors it builds one profile per entry, in order; if an entry
(after well-formed ones) contains an invalid hex color, it fails with a
`ValueError` whose message names that entry's preset key (no entry is silently
skipped); an entry with an empty color list instead fails with an unguarded
`IndexError`. -/
theorem c4_spec (entries : List (String × List String)) :
    custom_preset_profiles none = Except.ok []
  ∧ custom_preset_profiles (some []) = Except.ok []
  ∧ ((∀ e ∈ entries, e.2 ≠ [] ∧ e.2.all isValidHexColor = true) →
      ∃ out, custom_preset_profiles (some entries) = Except.ok out
        ∧ out.map Prod.fst = entries.map Prod.fst)
  ∧ (∀ (pre : List (String × List String)) (name : String) (colors : List String)
        (post : List (String × List String)) (c : String),
      entries = pre ++ (name, colors) :: post →
      (∀ e ∈ pre, e.2 ≠ [] ∧ e.2.all isValidHexColor = true) →
      colors.find? (fun x => !isValidHexColor x) = some c →
      custom_preset_profiles (some entries) =
        Except.error (.valueError
          ("failed to validate custom preset key \x22" ++ name ++ "\x22: " ++ ("invalid hex color: " ++ c)))) := by
  refine ⟨rfl, rfl, fun h => ?_, fun pre name colors post c heq hpre hfind => ?_⟩
  · obtain ⟨out, ho, hm⟩ := cppGo_ok entries h
    exact ⟨out, ho, hm⟩
  · subst heq
    exact cppGo_err pre name colors post c hpre hfind

/-- Witness for C4: a record with a well-formed entry, then an entry holding the
invalid literal `"#zz"`, then another entry; the failure names the key `"bad"`. -/
theorem c4_witness :
    (∀ e ∈ ([("good", ["#fff"])] : List (String × List String)),
        e.2 ≠ [] ∧ e.2.all isValidHexColor = true)
  ∧ (["#zz", "#000"].find? (fun x => !isValidHexColor x) = some "#zz")
  ∧ custom_preset_profiles
      (some [("good", ["#fff"]), ("bad", ["#zz", "#000"]), ("t", ["#111"])]) =
      Except.error (.valueError
        ("failed to validate custom preset key \x22" ++ "bad" ++ "\x22: " ++ ("invalid hex color: " ++ "#zz"))) :=
  ⟨by decide, by decide,
    (c4_spec [("good", ["#fff"]), ("bad", ["#zz", "#000"]), ("t", ["#111"])]).2.2.2
      [("good", ["#fff"])] "bad" ["#zz", "#000"] [("t", ["#111"])] "#zz" rfl (by decide) (by decide)⟩

/-- C5: the launcher's decision matrix, in order: Windows with major version
below 10 falls back with the Windows reason; Darwin with a non-empty version
below 10.12 falls back with the macOS reason; with no platform reason and no
compiled executable it falls back with the missing-binary reason; with no
platform reason and the executable present it replaces the process image with
the executable, forwarding all arguments unchanged after the program path. -/
theorem c5_spec (p : Platform) (args : List String) :
    (p.system = "Windows" → p.windowsMajor < 10 → run_rust p args = .fallback win_reason)
  ∧ (p.system = "Darwin" → p.macVer ≠ "" → verLt (parseVer p.macVer) [10, 12] = true →
      run_rust p args = .fallback (mac_reason p.macVer))
  ∧ (platform_reason p = none → p.rustExists = false →
      run_rust p args = .fallback missing_reason)
  ∧ (platform_reason p = none → p.rustExists = true →
      run_rust p args = .exec (rust_path p) (rust_path p :: args)) := by
  refine ⟨fun h1 h2 => ?_, fun h1 h2 h3 => ?_, fun h1 h2 => ?_, fun h1 h2 => ?_⟩
  · unfold run_rust platform_reason
    rw [if_pos ⟨h1, h2⟩]
  · unfold run_rust platform_reason
    rw [if_neg (by rw [h1]; exact fun hc => absurd hc.1 (by decide)), if_pos ⟨h1, h2, h3⟩]
  · simp [run_rust, h1, h2]
  · simp [run_rust, h1, h2]

/-- Witness for C5: macOS 10.11.6 triggers the version fallback. -/
theorem c5_witness :
    (Platform.mk "Darwin" 0 "10.11.6" true "/app").system = "Darwin"
  ∧ (Platform.mk "Darwin" 0 "10.11.6" true "/app").macVer ≠ ""
  ∧ verLt (parseVer (Platform.mk "Darwin" 0 "10.11.6" true "/app").macVer) [10, 12] = true
  ∧ run_rust (Platform.mk "Darwin" 0 "10.11.6" true "/app") [] =
      .fallback (mac_reason "10.11.6") :=
  ⟨rfl, by decide, by decide, (c5_spec (Platform.mk "Darwin" 0 "10.11.6" true "/app") []).2.1 rfl (by decide) (by decide)⟩

/-- C6: for every profile with at least one color, every text and every mode
combination, `color_text` ends its output with the reset sequence `ESC[39;49m`;
and in space-only mode the output is exactly the spec-side rendering in which
only space characters receive a color block and a reset sequence is emitted
immediately before each non-space character that directly follows a space. -/
theorem c6_spec (p : ColorProfile) (txt : String) (fg so : Bool)
    (h : 1 ≤ p.colors.length) :
    (∃ s, p.color_text txt fg so = some (s ++ "\x1b[39;49m"))
  ∧ p.color_text txt fg true =
      (p.with_length txt.length).map
        (fun colors => spaceOnlyRun fg (colors.zip txt.data) none ++ "\x1b[39;49m") := by
  constructor
  · rw [ColorProfile.color_text, ColorProfile.with_length, if_neg (by omega)]
    exact ⟨_, rfl⟩
  · rw [ColorProfile.color_text]
    cases hw : p.with_length txt.length with
    | none => simp
    | some colors => simp [colorTextLoop_space_only]

/-- Witness for C6 at a single-color profile and the text `"a b"` (a non-space
character directly following a space). -/
theorem c6_witness :
    1 ≤ (ColorProfile.mk [⟨255, 0, 0⟩] none).colors.length
  ∧ ((∃ s, (ColorProfile.mk [⟨255, 0, 0⟩] none).color_text "a b" true true =
        some (s ++ "\x1b[39;49m"))
    ∧ (ColorProfile.mk [⟨255, 0, 0⟩] none).color_text "a b" true true =
        ((ColorProfile.mk [⟨255, 0, 0⟩] none).with_length ("a b" : String).length).map
          (fun colors => spaceOnlyRun true (colors.zip ("a b" : String).data) none ++ "\x1b[39;49m")) :=
  ⟨by decide, c6_spec (ColorProfile.mk [⟨255, 0, 0⟩] none) "a b" true true (by decide)⟩

/-- C7: `set_light_dl` uses the overlay strategy exactly when the lookup
service's `use_overlay` flag is set, and otherwise applies raw lightness with an
at-least clamp for a dark terminal and an at-most clamp for a light terminal;
`overlay_dl` overlays black for light terminals and white for dark terminals
with alpha `abs(light - 0.5) * 2`, which is 0 when the target is exactly 0.5. -/
theorem c7_spec (cfg : GlobalConfig) (p : ColorProfile) (light : Rat)
    (term : Option LightDark) :
    (cfg.use_overlay = true → p.set_light_dl cfg light term = p.overlay_dl cfg light term)
  ∧ (cfg.use_overlay = false → termOf cfg term = .dark →
      p.set_light_dl cfg light term = p.set_light_raw light (some true) none)
  ∧ (cfg.use_overlay = false → termOf cfg term = .light →
      p.set_light_dl cfg light term = p.set_light_raw light none (some true))
  ∧ (termOf cfg term = .light →
      p.overlay_dl cfg light term = p.overlay_raw ⟨0, 0, 0⟩ (overlayAlpha light))
  ∧ (termOf cfg term = .dark →
      p.overlay_dl cfg light term = p.overlay_raw ⟨255, 255, 255⟩ (overlayAlpha light))
  ∧ overlayAlpha light = |light - 1 / 2| * 2
  ∧ overlayAlpha (1 / 2) = 0 := by
  have hb : (RGB.from_hex? "#000000").getD ⟨0, 0, 0⟩ = (⟨0, 0, 0⟩ : RGB) := by decide
  have hw : (RGB.from_hex? "#FFFFFF").getD ⟨0, 0, 0⟩ = (⟨255, 255, 255⟩ : RGB) := by decide
  refine ⟨fun h => ?_, fun h ht => ?_, fun h ht => ?_, fun ht => ?_, fun ht => ?_, rfl, ?_⟩
  · simp [ColorProfile.set_light_dl, h]
  · simp [ColorProfile.set_light_dl, h, ht]
  · simp [ColorProfile.set_light_dl, h, ht]
  · simp [ColorProfile.overlay_dl, ht, hb]
  · simp [ColorProfile.overlay_dl, ht, hw]
  · simp [overlayAlpha]

/-- Witness for C7: with `use_overlay` unset and a dark terminal, `set_light_dl`
is raw lightness with the at-least clamp. -/
theorem c7_witness :
    (GlobalConfig.mk false LightDark.dark).use_overlay = false
  ∧ termOf (GlobalConfig.mk false LightDark.dark) none = LightDark.dark
  ∧ (ColorProfile.mk [⟨10, 20, 30⟩] none).set_light_dl (GlobalConfig.mk false LightDark.dark)
      (1 / 2) none
      = (ColorProfile.mk [⟨10, 20, 30⟩] none).set_light_raw (1 / 2) (some true) none :=
  ⟨rfl, rfl, (c7_spec (GlobalConfig.mk false LightDark.dark)
    (ColorProfile.mk [⟨10, 20, 30⟩] none) (1 / 2) none).2.1 rfl rfl⟩

/-- C8: `unique_colors` returns a new profile keeping exactly the first
occurrence of each distinct color in order of first appearance (a sublist of the
original without duplicates and with the same members); colors A,B,A,C yield
A,B,C. -/
theorem c8_spec (p : ColorProfile) :
    (p.unique_colors).colors = firstOccDedup p.colors
  ∧ (p.unique_colors).colors.Sublist p.colors
  ∧ (p.unique_colors).colors.Nodup
  ∧ (∀ x, x ∈ (p.unique_colors).colors ↔ x ∈ p.colors)
  ∧ (ColorProfile.mk [⟨255, 0, 0⟩, ⟨0, 255, 0⟩, ⟨255, 0, 0⟩, ⟨0, 0, 255⟩] none).unique_colors
      = ColorProfile.mk [⟨255, 0, 0⟩, ⟨0, 255, 0⟩, ⟨0, 0, 255⟩] none := by
  have h1 : (p.unique_colors).colors = firstOccDedup p.colors := by
    show remove_duplicates p.colors = _
    exact remove_duplicates_eq _
  refine ⟨h1, ?_, ?_, ?_, by decide⟩
  · rw [h1]; exact firstOccDedup_sublist _
  · rw [h1]; exact firstOccDedup_nodup _
  · intro x; rw [h1]; exact mem_firstOccDedup _ _

/-- C9, counterexample: construction from the non-empty color list `["zz"]` is
not total: the string path parses each element with `from_hex`, which rejects
the malformed literal. -/
theorem c9_counterexample :
    ColorProfile.init_str ["zz"] = Except.error (.valueError "invalid hex color literal") := by
  rfl

/-- C9 (amended): construction from an empty color list fails with an unguarded
indexing error on both the string and the RGB path, and `with_length` on an
empty profile fails by division by zero; construction from a non-empty RGB list
and `with_length` on a non-empty profile are total, and construction from a
non-empty hex-string list is total provided every string is a well-formed hex
literal. -/
theorem c9_spec (rgbs : List RGB) (strs : List String) (L : Nat)
    (h1 : rgbs ≠ []) (h2 : strs ≠ []) (h3 : ∀ s ∈ strs, isHexLiteral s = true) :
    ColorProfile.init_rgb [] = Except.error PyError.indexError
  ∧ ColorProfile.init_str [] = Except.error PyError.indexError
  ∧ (ColorProfile.mk [] none).with_length L = none
  ∧ ColorProfile.init_rgb rgbs = Except.ok (ColorProfile.mk rgbs none)
  ∧ (∃ out, (ColorProfile.mk rgbs none).with_length L = some out)
  ∧ (∃ p, ColorProfile.init_str strs = Except.ok p) := by
  refine ⟨rfl, rfl, rfl, ?_, ?_, init_str_ok strs h2 h3⟩
  · match rgbs, h1 with
    | r :: rest, _ => rfl
  · rw [ColorProfile.with_length, if_neg (by simp [h1])]
    exact ⟨_, rfl⟩

/-- Witness for C9 at a one-color RGB list, the hex list `["#abc"]` and length 7. -/
theorem c9_witness :
    ([⟨1, 2, 3⟩] : List RGB) ≠ []
  ∧ (["#abc"] : List String) ≠ []
  ∧ (∀ s ∈ (["#abc"] : List String), isHexLiteral s = true)
  ∧ (ColorProfile.init_rgb [] = Except.error PyError.indexError
    ∧ ColorProfile.init_str [] = Except.error PyError.indexError
    ∧ (ColorProfile.mk [] none).with_length 7 = none
    ∧ ColorProfile.init_rgb [⟨1, 2, 3⟩] = Except.ok (ColorProfile.mk [⟨1, 2, 3⟩] none)
    ∧ (∃ out, (ColorProfile.mk [⟨1, 2, 3⟩] none).with_length 7 = some out)
    ∧ (∃ p, ColorProfile.init_str ["#abc"] = Except.ok p)) :=
  ⟨by decide, by decide, by decide, c9_spec [⟨1, 2, 3⟩] ["#abc"] 7 (by decide) (by decide) (by decide)⟩

/-- C10: on Darwin with an empty reported macOS version string, the version
fallback is not triggered (the comparison is guarded on the string being
non-empty), so the outcome depends only on whether the compiled executable
exists. -/
theorem c10_spec (p : Platform) (args : List String)
    (h1 : p.system = "Darwin") (h2 : p.macVer = "") :
    run_rust p args = (if p.rustExists then Outcome.exec (rust_path p) (rust_path p :: args)
      else Outcome.fallback missing_reason) := by
  have hr : platform_reason p = none := by
    unfold platform_reason
    rw [if_neg (by rw [h1]; exact fun hc => absurd hc.1 (by decide)),
      if_neg (by rw [h2]; exact fun hc => hc.2.1 rfl)]
  simp [run_rust, hr]

/-- Witness for C10: Darwin, empty version string, executable present: the
process-replacement path is taken. -/
theorem c10_witness :
    (Platform.mk "Darwin" 11 "" true "/app").system = "Darwin"
  ∧ (Platform.mk "Darwin" 11 "" true "/app").macVer = ""
  ∧ run_rust (Platform.mk "Darwin" 11 "" true "/app") ["-a"] =
      (if (Platform.mk "Darwin" 11 "" true "/app").rustExists
       then Outcome.exec (rust_path (Platform.mk "Darwin" 11 "" true "/app"))
         (rust_path (Platform.mk "Darwin" 11 "" true "/app") :: ["-a"])
       else Outcome.fallback missing_reason) :=
  ⟨rfl, rfl, c10_spec (Platform.mk "Darwin" 11 "" true "/app") ["-a"] rfl rfl⟩
